import Mathlib

/-!
Shallow embedding of the capability-descriptor schema (`miio/descriptors.py`)
and the gateway sub-device proxy
(`miio/integrations/lumi/gateway/devices/subdevice.py`).

Python dynamic values are modelled by the inductive `Val` (numbers as exact
rationals, strings, booleans, `None`); Python dicts by insertion-ordered
association lists with first-occurrence lookup and in-place update; Python
exceptions by `Except`; network transport results by explicit parameters
(`Except Unit (List Val)` is the response of one wire call, `.error` a raised
transport exception). Side observations that claims need (how many transport
calls were issued, which observers were invoked, which subscription handles
were released) are returned explicitly.
-/

namespace Miio

/-- A dynamic (Python-like) value: exact rationals stand for int/float. -/
inductive Val where
  | num (q : ℚ)
  | str (s : String)
  | bool (b : Bool)
  | pynone
deriving DecidableEq, Repr

/-- First-occurrence lookup in an insertion-ordered association list
(Python `dict[k]` / `dict.get(k)`). -/
def dictGet {α : Type} : List (String × α) → String → Option α
  | [], _ => none
  | (k2, v) :: rest, k => if k2 = k then some v else dictGet rest k

/-- Python `dict[k] = v`: replace the value of an existing key in place
(keeping its position), otherwise append at the end. -/
def dictSet {α : Type} : List (String × α) → String → α → List (String × α)
  | [], k, v => [(k, v)]
  | (k2, v2) :: rest, k, v =>
      if k2 = k then (k, v) :: rest else (k2, v2) :: dictSet rest k v

/-- Python `dict.pop(k)` with no default: the removed value and the remaining
entries, or `none` for the `KeyError` case. -/
def dictPop {α : Type} (d : List (String × α)) (k : String) :
    Option (α × List (String × α)) :=
  match dictGet d k with
  | some v => some (v, d.filter (fun p => p.1 ≠ k))
  | none => none

/-! ## Descriptor schema (`miio/descriptors.py`) -/

/-- `SettingType` enum (descriptors.py lines 61-65). -/
inductive SettingType where
  | Undefined
  | Number
  | Boolean
  | Enum
deriving DecidableEq, Repr

/-- Digits of a decimal literal folded into a number; `none` when a
non-digit character appears or the digit list is empty. -/
def digitsToNat : List Char → Option ℕ
  | [] => none
  | cs =>
    cs.foldl
      (fun acc c =>
        match acc with
        | none => none
        | some n => if c.isDigit then some (10 * n + (c.toNat - 48)) else none)
      (some 0)

/-- Python `int(s)` on a string: optional sign followed by decimal digits,
`ValueError` (i.e. `none`) otherwise. -/
def strToInt (s : String) : Option ℤ :=
  match s.data with
  | [] => none
  | c :: cs =>
    if c = '-' then (digitsToNat cs).map (fun n => -(n : ℤ))
    else if c = '+' then (digitsToNat cs).map (fun n => (n : ℤ))
    else (digitsToNat (c :: cs)).map (fun n => (n : ℤ))

/-- Python `int(value)` on a dynamic value: floats truncate toward zero,
booleans map to 0/1, strings parse, `None` is a `TypeError`. -/
def pyIntOf : Val → Option ℤ
  | Val.num q => some (Int.tdiv q.num q.den)
  | Val.bool b => some (if b then 1 else 0)
  | Val.str s => strToInt s
  | Val.pynone => none

/-- `SettingDescriptor` (descriptors.py lines 68-85).  The class-level
attribute `setting_type = SettingType.Undefined` is the default here; the
subclasses `BooleanSettingDescriptor`, `EnumSettingDescriptor` and
`NumberSettingDescriptor` fix it to their kind. -/
structure SettingDescriptor where
  id : String
  name : String
  property : String
  unit : Option String := none
  setting_type : SettingType := SettingType.Undefined
deriving DecidableEq, Repr

/-- `SettingDescriptor.cast_value` (descriptors.py lines 78-85):
`cast_map[self.setting_type](int(value))`.  Python evaluates the dict lookup
`cast_map[self.setting_type]` first, so an `Undefined` kind raises `KeyError`
before `int(value)` is attempted; `int(value)` itself may raise, which is the
other `.error` source. -/
def castValueOf (setting_type : SettingType) (value : Val) : Except Unit Val :=
  match setting_type with
  | SettingType.Undefined => Except.error ()
  | SettingType.Boolean =>
    match pyIntOf value with
    | some n => Except.ok (Val.bool (decide (n ≠ 0)))
    | none => Except.error ()
  | SettingType.Enum =>
    match pyIntOf value with
    | some n => Except.ok (Val.num (n : ℚ))
    | none => Except.error ()
  | SettingType.Number =>
    match pyIntOf value with
    | some n => Except.ok (Val.num (n : ℚ))
    | none => Except.error ()

/-- Method form of `cast_value` on a descriptor. -/
def SettingDescriptor.cast_value (d : SettingDescriptor) (value : Val) :
    Except Unit Val :=
  castValueOf d.setting_type value

/-- `BooleanSettingDescriptor` (descriptors.py lines 88-93): fixes
`setting_type = Boolean`. -/
def BooleanSettingDescriptor (id name property : String) : SettingDescriptor :=
  { id := id, name := name, property := property
    setting_type := SettingType.Boolean }

/-- `EnumSettingDescriptor` (descriptors.py lines 96-102): fixes
`setting_type = Enum` (choices metadata has no executable role here). -/
def EnumSettingDescriptor (id name property : String) : SettingDescriptor :=
  { id := id, name := name, property := property
    setting_type := SettingType.Enum }

/-- `NumberSettingDescriptor` (descriptors.py lines 105-118): fixes
`setting_type = Number` (the numeric bounds have no executable role here). -/
def NumberSettingDescriptor (id name property : String) : SettingDescriptor :=
  { id := id, name := name, property := property
    setting_type := SettingType.Number }

/-! ## Sub-device proxy (`subdevice.py`) -/

/-- `SubDeviceInfo` discovery record (subdevice.py lines 20-28). -/
structure SubDeviceInfo where
  sid : String
  type_id : ℤ
  unknown : ℤ
  unknown2 : ℤ
  fw_ver : ℤ
deriving DecidableEq, Repr

/-- One entry of `model_info["properties"]` (consumed in `__init__`,
lines 58-62, and `update`, lines 129-134): wire property name, optional
display name, optional default, optional retrieval method tag, and the
optional numeric divisor stored under the key `"devisor"`. -/
structure PropSpec where
  property : String
  name : Option String := none
  default : Option Val := none
  get : Option String := none
  devisor : Option ℚ := none
deriving DecidableEq, Repr

/-- One entry of `model_info["push_properties"]` (consumed in
`push_callback`, lines 294-298, and `subscribe_events`, lines 312-319). -/
structure EventMeta where
  property : Option String := none
  value : Option Val := none
  extra : String := ""
  event : Option String := none
  command_extra : String := ""
  trigger_value : Option Val := none
deriving DecidableEq, Repr

/-- `model_info` mapping (external configuration contract); the structure
defaults play the role of the `model_info.get(key, default)` fallbacks used
in `__init__`. -/
structure ModelInfo where
  battery_powered : Bool := true
  model : String := "unknown"
  name : String := "unknown"
  zigbee_id : String := "unknown"
  properties : List PropSpec := []
  setter : Option String := none
  push_properties : List (String × EventMeta) := []
deriving DecidableEq, Repr

/-- Mutable state of a `SubDevice` proxy (subdevice.py lines 31-68).
Callbacks are opaque tokens (`ℕ`); dispatching to one is recorded rather
than executed. -/
structure SubDevice where
  sid : String
  battery_powered : Bool
  battery : Option Val := none
  voltage : Option Val := none
  fw_ver : Val
  model : String
  name : String
  zigbee_model : String
  props : List (String × Val)
  get_prop_exp_dict : List (String × PropSpec)
  setter : Option String := none
  push_events : List (String × EventMeta)
  event_ids : List String := []
  registered_callbacks : List (String × ℕ) := []
deriving DecidableEq, Repr

/-- `SubDevice.__init__` (subdevice.py lines 35-68): seeds the property
cache from each configured property's default (under its display name) and
records the properties whose `get` method is `"get_property_exp"` in
`get_prop_exp_dict`, keyed by wire property name, in registration order. -/
def SubDevice.init (dev_info : SubDeviceInfo) (model_info : ModelInfo) :
    SubDevice where
  sid := dev_info.sid
  battery_powered := model_info.battery_powered
  battery := none
  voltage := none
  fw_ver := Val.num (dev_info.fw_ver : ℚ)
  model := model_info.model
  name := model_info.name
  zigbee_model := model_info.zigbee_id
  props :=
    model_info.properties.foldl
      (fun d prop => dictSet d (prop.name.getD prop.property)
        (prop.default.getD Val.pynone))
      []
  get_prop_exp_dict :=
    model_info.properties.foldl
      (fun d prop =>
        if prop.get = some "get_property_exp" then dictSet d prop.property prop
        else d)
      []
  setter := model_info.setter
  push_events := model_info.push_properties
  event_ids := []
  registered_callbacks := []

/-- `SubDevice.get_property_exp` (subdevice.py lines 184-203) applied to a
given transport response: a raised transport exception is re-wrapped into a
`DeviceException`, and a response whose length differs from the request
raises a `DeviceException`. -/
def get_property_exp (properties : List String)
    (resp : Except Unit (List Val)) (model : String) :
    Except String (List Val) :=
  match resp with
  | Except.error _ =>
    Except.error ("Got an exception while fetching properties on model " ++ model)
  | Except.ok response =>
    if properties.length ≠ response.length then
      Except.error ("unexpected result while fetching properties on model " ++ model)
    else Except.ok response

/-- Python `values[i] / devisor` inside `update`: defined on numbers (and on
booleans, which are `int` subclasses in Python); any other operand raises. -/
def divVal : Val → ℚ → Except Unit Val
  | Val.num q, dv => Except.ok (Val.num (q / dv))
  | Val.bool b, dv => Except.ok (Val.num ((if b then 1 else 0) / dv))
  | _, _ => Except.error ()

/-- The zip loop of `SubDevice.update` (subdevice.py lines 127-135):
positionally match `values[i]` to the i-th registered spec, divide when a
truthy `"devisor"` is configured, and store under the display name.  An
`.error` is any exception inside the `try` block (e.g. `IndexError` from
`values[i]`). -/
def updateLoop (specs : List PropSpec) (values : List Val) (i : ℕ)
    (d : List (String × Val)) : Except Unit (List (String × Val)) :=
  match specs with
  | [] => Except.ok d
  | spec :: rest =>
    match values[i]? with
    | none => Except.error ()
    | some v =>
      match
        (match spec.devisor with
         | some dv => if dv ≠ 0 then divVal v dv else Except.ok v
         | none => Except.ok v) with
      | Except.error e => Except.error e
      | Except.ok result =>
        updateLoop rest values (i + 1)
          (dictSet d (spec.name.getD spec.property) result)

/-- `SubDevice.update` (subdevice.py lines 122-141).  `resp` is the
transport response of the one batched fetch; the second component counts
transport calls issued.  An exception inside the zip is wrapped into a
`DeviceException` naming the model. -/
def SubDevice.update (d : SubDevice) (resp : Except Unit (List Val)) :
    Except String SubDevice × ℕ :=
  if d.get_prop_exp_dict = [] then (Except.ok d, 0)
  else
    match get_property_exp (d.get_prop_exp_dict.map Prod.fst) resp d.model with
    | Except.error e => (Except.error e, 1)
    | Except.ok values =>
      match updateLoop (d.get_prop_exp_dict.map Prod.snd) values 0 d.props with
      | Except.error _ =>
        (Except.error
          ("One or more unexpected results while fetching properties on model "
            ++ d.model), 1)
      | Except.ok props2 => (Except.ok { d with props := props2 }, 1)

/-- `SubDevice.get_property` (subdevice.py lines 166-182) applied to a given
transport response: a raised transport exception is re-wrapped, and a falsy
(empty) response raises a `DeviceException`. -/
def get_property (resp : Except Unit (List Val)) (model : String) :
    Except String (List Val) :=
  match resp with
  | Except.error _ =>
    Except.error ("Got an exception while fetching property on model " ++ model)
  | Except.ok response =>
    if response = [] then
      Except.error ("Empty response while fetching property on model " ++ model)
    else Except.ok response

/-- `SubDevice.get_firmware_version` (subdevice.py lines 259-269): tries
`get_property("fw_ver").pop()` (Python `pop()` takes the last element);
any exception inside the `try` is logged and the stored `_fw_ver` — seeded
from the discovery record — is returned instead.  Returns the new state and
the returned value; no error ever propagates. -/
def SubDevice.get_firmware_version (d : SubDevice)
    (resp : Except Unit (List Val)) : SubDevice × Val :=
  match get_property resp d.model with
  | Except.error _ => (d, d.fw_ver)
  | Except.ok response =>
    match response.getLast? with
    | some v => ({ d with fw_ver := v }, v)
    | none => (d, d.fw_ver)

/-- `SubDevice.get_battery` (subdevice.py lines 221-238).  `gw_model` is the
owning gateway's model string, `unsupported` stands for the constant list
`[GATEWAY_MODEL_EU, GATEWAY_MODEL_ZIG3]` of gateway models without battery
support (defined outside `src`), `resp` is the transport response of
`send("get_battery")` were it issued.  Returns the outcome (new state and
returned value, or a propagated exception) and the number of transport calls
issued. -/
def SubDevice.get_battery (d : SubDevice) (gw_model : String)
    (unsupported : List String) (resp : Except Unit (List Val)) :
    Except Unit (SubDevice × Option Val) × ℕ :=
  if d.battery_powered = false then (Except.ok (d, none), 0)
  else if gw_model ∈ unsupported then (Except.ok (d, d.battery), 0)
  else
    match resp with
    | Except.error e => (Except.error e, 1)
    | Except.ok response =>
      match response.getLast? with
      | none => (Except.error (), 1)
      | some v => (Except.ok ({ d with battery := some v }, some v), 1)

/-- `SubDevice.register_callback` (subdevice.py lines 271-278): id-keyed
insert, overwriting (with a logged warning, the returned flag) an existing
registration. -/
def SubDevice.register_callback (d : SubDevice) (id : String)
    (callback : ℕ) : SubDevice × Bool :=
  ({ d with registered_callbacks := dictSet d.registered_callbacks id callback },
   (dictGet d.registered_callbacks id).isSome)

/-- `SubDevice.remove_callback` (subdevice.py lines 280-282):
`self._registered_callbacks.pop(id)` with no default; `.error` is the
`KeyError` raised for an unregistered id. -/
def SubDevice.remove_callback (d : SubDevice) (id : String) :
    Except Unit SubDevice :=
  match dictPop d.registered_callbacks id with
  | none => Except.error ()
  | some (_, rest) => Except.ok { d with registered_callbacks := rest }

/-- `SubDevice.push_callback` (subdevice.py lines 284-301).  Returns whether
the unregistered-action error was logged, and then either the `KeyError`
raised by `self.push_events[action]` on an absent key (`.error`), or the new
state together with the observer invocations `(callback token, action,
params)` dispatched in registration order. -/
def SubDevice.push_callback (d : SubDevice) (action : String)
    (params : String) :
    Bool × Except Unit (SubDevice × List (ℕ × String × String)) :=
  let logged := (dictGet d.push_events action).isNone
  match dictGet d.push_events action with
  | none => (logged, Except.error ())
  | some event =>
    let d2 :=
      match event.property, event.value with
      | some prop, some value => { d with props := dictSet d.props prop value }
      | _, _ => d
    (logged,
     Except.ok (d2, d.registered_callbacks.map (fun c => (c.2, action, params))))

/-- `EventInfo` built in `subscribe_events` (subdevice.py lines 312-320)
from one `push_events` entry. -/
structure EventInfo where
  action : String
  extra : String
  source_sid : String
  source_model : String
  event : Option String
  command_extra : String
  trigger_value : Option Val
deriving DecidableEq, Repr

/-- The `EventInfo` that `subscribe_events` constructs for the entry
`(action, meta)` of `push_events` on device `d`. -/
def mkEventInfo (d : SubDevice) (pe : String × EventMeta) : EventInfo where
  action := pe.1
  extra := pe.2.extra
  source_sid := d.sid
  source_model := d.zigbee_model
  event := pe.2.event
  command_extra := pe.2.command_extra
  trigger_value := pe.2.trigger_value

/-- One iteration of the `subscribe_events` loop (subdevice.py lines
311-327): request a subscription for one declared event; on failure set the
overall result to `False` and keep going, on success append the returned
handle to the accumulated `event_ids`. -/
def subscribeStep (d : SubDevice) (svc : EventInfo → Option String)
    (acc : Bool × List String) (pe : String × EventMeta) :
    Bool × List String :=
  match svc (mkEventInfo d pe) with
  | none => (false, acc.2)
  | some event_id => (acc.1, acc.2 ++ [event_id])

/-- `SubDevice.subscribe_events` (subdevice.py lines 303-329), for a gateway
whose push server is present.  `svc` is the notification service:
`subscribe_event` returning `none` on failure. -/
def SubDevice.subscribe_events (d : SubDevice)
    (svc : EventInfo → Option String) : Bool × SubDevice :=
  let final := d.push_events.foldl (subscribeStep d svc) (true, d.event_ids)
  (final.1, { d with event_ids := final.2 })

/-- Python `list.remove(x)`: drop the first occurrence of `x` (no-op here in
the absent case, which `unsubscribe_events` never reaches). -/
def listRemove : List String → String → List String
  | [], _ => []
  | y :: ys, x => if y = x then ys else y :: listRemove ys x

theorem listRemove_length_lt (l : List String) (x : String) (hx : x ∈ l) :
    (listRemove l x).length < l.length := by
  induction l with
  | nil => cases hx
  | cons y ys ih =>
    by_cases hyx : y = x
    · simp [listRemove, hyx]
    · have hx2 : x ∈ ys := by
        cases hx with
        | head => exact absurd rfl hyx
        | tail _ h => exact h
      simp only [listRemove, if_neg hyx, List.length_cons]
      exact Nat.succ_lt_succ (ih hx2)

/-- The `for event_id in self._event_ids` loop of `unsubscribe_events`
(subdevice.py lines 333-335), with every release request succeeding.
Python's for-statement iterates by an internal index over the very list the
body mutates: each step reads the element at index `i` (stopping when `i` is
out of range), awaits its release (recorded in `released`) and removes it
from the list.  Returns the final list and the released handles in order. -/
def unsubscribeLoop (ids : List String) (i : ℕ) (released : List String) :
    List String × List String :=
  match h : ids[i]? with
  | none => (ids, released)
  | some event_id =>
    unsubscribeLoop (listRemove ids event_id) (i + 1) (released ++ [event_id])
termination_by ids.length - i
decreasing_by
  obtain ⟨hi, hget⟩ := List.getElem?_eq_some_iff.mp h
  have hmem : event_id ∈ ids := hget ▸ List.getElem_mem hi
  have hlt := listRemove_length_lt ids event_id hmem
  omega

/-- `SubDevice.unsubscribe_events` (subdevice.py lines 331-335) in the case
where the notification service accepts every release request: returns the
new state and the handles actually released. -/
def SubDevice.unsubscribe_events (d : SubDevice) : SubDevice × List String :=
  let final := unsubscribeLoop d.event_ids 0 []
  ({ d with event_ids := final.1 }, final.2)

/-! ## Dictionary lemmas -/

theorem dictGet_dictSet_self {α : Type} (d : List (String × α)) (k : String)
    (v : α) : dictGet (dictSet d k v) k = some v := by
  induction d with
  | nil => simp [dictGet, dictSet]
  | cons p rest ih =>
    by_cases hk : p.1 = k
    · simp [dictSet, hk, dictGet]
    · simp [dictSet, hk, dictGet, ih]

theorem dictGet_dictSet_ne {α : Type} (d : List (String × α)) (k k2 : String)
    (v : α) (h : k2 ≠ k) : dictGet (dictSet d k2 v) k = dictGet d k := by
  induction d with
  | nil => simp [dictGet, dictSet, h]
  | cons p rest ih =>
    by_cases hk : p.1 = k2
    · simp [dictSet, hk, dictGet, h]
    · simp only [dictSet, if_neg hk, dictGet]
      by_cases hpk : p.1 = k <;> simp [hpk, ih]

theorem dictGet_filter_self {α : Type} (l : List (String × α)) (id : String) :
    dictGet (l.filter (fun p => p.1 ≠ id)) id = none := by
  induction l with
  | nil => simp [dictGet]
  | cons p rest ih =>
    simp only [ne_eq, decide_not] at ih ⊢
    by_cases hp : p.1 = id
    · simp [List.filter_cons, hp, ih]
    · simp [List.filter_cons, hp, dictGet, ih]

theorem dictGet_filter_other {α : Type} (l : List (String × α))
    (id k : String) (h : k ≠ id) :
    dictGet (l.filter (fun p => p.1 ≠ id)) k = dictGet l k := by
  induction l with
  | nil => simp [dictGet]
  | cons p rest ih =>
    simp only [ne_eq, decide_not] at ih ⊢
    by_cases hp : p.1 = id
    · have hpk : p.1 ≠ k := by
        intro hc
        exact h (hc ▸ hp)
      simp [List.filter_cons, hp, dictGet, hpk, ih, h, Ne.symm h]
    · by_cases hpk : p.1 = k <;>
        simp [List.filter_cons, hp, dictGet, hpk, ih, h, Ne.symm h]

/-! ## Concrete example inputs used by the witnesses -/

/-- A discovery record. -/
def infoEx : SubDeviceInfo :=
  { sid := "lumi.158d00", type_id := 2, unknown := 0, unknown2 := 0,
    fw_ver := 7 }

/-- Batched-fetch spec for wire property `p1`: no display name override, no
divisor. -/
def specP1 : PropSpec := { property := "p1", get := some "get_property_exp" }

/-- Batched-fetch spec for wire property `p2`: divisor 10. -/
def specP2 : PropSpec :=
  { property := "p2", get := some "get_property_exp", devisor := some 10 }

/-- Model configuration registering `p1` then `p2` for the batched fetch. -/
def modelInfoBatch : ModelInfo := { properties := [specP1, specP2] }

/-- Event metadata for the two-event subscription scenario. -/
def metaE1 : EventMeta := { extra := "[1,6,1,0,[0,1],2,0]" }

/-- Event metadata for the two-event subscription scenario. -/
def metaE2 : EventMeta := { extra := "[1,6,2,0,[0,2],2,0]" }

/-- Model configuration declaring push events `e1` then `e2`. -/
def modelInfoPush : ModelInfo :=
  { push_properties := [("e1", metaE1), ("e2", metaE2)] }

/-- A notification service accepting only the subscription for `e1`. -/
def svcFirstOnly : EventInfo → Option String :=
  fun info => if info.action = "e1" then some "handle1" else none

/-! ## Claim theorems -/

/-- The typed result appropriate to a setting kind when casting an input
denoting 1: Boolean yields `true`, Enum and Number yield the integer 1. -/
def expectedCast : SettingType → Val
  | SettingType.Boolean => Val.bool true
  | SettingType.Enum => Val.num 1
  | SettingType.Number => Val.num 1
  | SettingType.Undefined => Val.pynone

/-- C6: for every `SettingDescriptor` whose kind is Boolean, Enum or Number
(i.e. any kind other than `Undefined`, covering the three subtypes that fix
those kinds), `cast_value` on each of the raw inputs `"1"`, `1` and `True`
yields the same typed result appropriate to that kind: Boolean gives `true`,
Enum gives the integer 1, Number gives the integer 1. -/
theorem cast_value_one_consistent (d : SettingDescriptor)
    (h : d.setting_type ≠ SettingType.Undefined) :
    d.cast_value (Val.str "1") = Except.ok (expectedCast d.setting_type) ∧
    d.cast_value (Val.num 1) = Except.ok (expectedCast d.setting_type) ∧
    d.cast_value (Val.bool true) = Except.ok (expectedCast d.setting_type) := by
  rcases d with ⟨id, name, property, unit, t⟩
  cases t with
  | Undefined => exact absurd rfl h
  | Number => exact ⟨rfl, rfl, rfl⟩
  | Boolean => exact ⟨rfl, rfl, rfl⟩
  | Enum => exact ⟨rfl, rfl, rfl⟩

/-- Witness for C6 at the Boolean subtype. -/
theorem cast_value_one_consistent_witness :
    (BooleanSettingDescriptor "b" "b" "b").cast_value (Val.str "1") =
        Except.ok (expectedCast (BooleanSettingDescriptor "b" "b" "b").setting_type) ∧
      (BooleanSettingDescriptor "b" "b" "b").cast_value (Val.num 1) =
        Except.ok (expectedCast (BooleanSettingDescriptor "b" "b" "b").setting_type) ∧
      (BooleanSettingDescriptor "b" "b" "b").cast_value (Val.bool true) =
        Except.ok (expectedCast (BooleanSettingDescriptor "b" "b" "b").setting_type) :=
  cast_value_one_consistent (BooleanSettingDescriptor "b" "b" "b") (by decide)

/-- C7: on a descriptor whose kind is `Undefined` (as a bare
`SettingDescriptor` defaults to), `cast_value` fails — the `cast_map`
lookup raises `KeyError` — for every raw value, rather than returning a
value. -/
theorem cast_value_undefined_fails (d : SettingDescriptor)
    (h : d.setting_type = SettingType.Undefined) (v : Val) :
    d.cast_value v = Except.error () := by
  simp [SettingDescriptor.cast_value, h, castValueOf]

/-- Witness for C7 on a default-constructed descriptor and the input 1. -/
theorem cast_value_undefined_fails_witness :
    ({ id := "s", name := "s", property := "s" } : SettingDescriptor).cast_value
        (Val.num 1) = Except.error () :=
  cast_value_undefined_fails { id := "s", name := "s", property := "s" } rfl
    (Val.num 1)

/-- C9: on a sub-device whose `get_prop_exp_dict` is empty, `update()` is a
complete no-op: it issues no transport call (count 0), raises no exception,
and returns the state unchanged, whatever the transport would have
answered. -/
theorem update_empty_noop (d : SubDevice) (resp : Except Unit (List Val))
    (h : d.get_prop_exp_dict = []) :
    d.update resp = (Except.ok d, 0) := by
  simp [SubDevice.update, h]

/-- Witness for C9: a device built from a configuration with no properties,
facing a transport that would even have raised. -/
theorem update_empty_noop_witness :
    (SubDevice.init infoEx {}).update (Except.error ()) =
      (Except.ok (SubDevice.init infoEx {}), 0) :=
  update_empty_noop (SubDevice.init infoEx {}) (Except.error ()) rfl

/-- C8: on a sub-device constructed with `battery_powered = false`,
`get_battery()` returns `None` with zero transport calls and the state —
including the cached battery value — unchanged, for every gateway model and
every transport behaviour. -/
theorem get_battery_not_powered (d : SubDevice) (gw_model : String)
    (unsupported : List String) (resp : Except Unit (List Val))
    (h : d.battery_powered = false) :
    d.get_battery gw_model unsupported resp = (Except.ok (d, none), 0) := by
  simp [SubDevice.get_battery, h]

/-- Witness for C8 on a device configured as not battery powered. -/
theorem get_battery_not_powered_witness :
    (SubDevice.init infoEx { battery_powered := false }).get_battery
        "lumi.gateway.mgl03" ["lumi.gateway.mieu01", "lumi.gateway.mgl03"]
        (Except.ok [Val.num 50]) =
      (Except.ok (SubDevice.init infoEx { battery_powered := false }, none), 0) :=
  get_battery_not_powered (SubDevice.init infoEx { battery_powered := false })
    "lumi.gateway.mgl03" ["lumi.gateway.mieu01", "lumi.gateway.mgl03"]
    (Except.ok [Val.num 50]) rfl

/-- C1: on any sub-device whose batched-fetch table registers exactly the
properties `p1` (no divisor, no display-name override) and then `p2`
(divisor 10), `update()` with the positional batched response `[5, 100]`
succeeds in one transport call and stores `propertyCache["p1"] = 5` and
`propertyCache["p2"] = 10`: each configured divisor is applied to the
positionally matched raw value before storing under the display name. -/
theorem update_divisor_applied (d : SubDevice) (s1 s2 : PropSpec)
    (hd : d.get_prop_exp_dict = [("p1", s1), ("p2", s2)])
    (h1p : s1.property = "p1") (h1n : s1.name = none) (h1v : s1.devisor = none)
    (h2p : s2.property = "p2") (h2n : s2.name = none)
    (h2v : s2.devisor = some 10) :
    ∃ d2, d.update (Except.ok [Val.num 5, Val.num 100]) = (Except.ok d2, 1) ∧
      dictGet d2.props "p1" = some (Val.num 5) ∧
      dictGet d2.props "p2" = some (Val.num 10) := by
  refine ⟨{ d with props := dictSet (dictSet d.props "p1" (Val.num 5)) "p2" (Val.num 10) }, ?_, ?_, ?_⟩
  · have hq : (100 : ℚ) / 10 = 10 := by norm_num
    simp [SubDevice.update, hd, get_property_exp, updateLoop, h1p, h1n, h1v,
      h2p, h2n, h2v, divVal, hq]
  · rw [dictGet_dictSet_ne _ _ _ _ (by decide)]
    exact dictGet_dictSet_self _ _ _
  · exact dictGet_dictSet_self _ _ _

/-- Witness for C1 on a device built from `modelInfoBatch`, which registers
`p1` then `p2` (divisor 10) for the batched fetch. -/
theorem update_divisor_applied_witness :
    ∃ d2, (SubDevice.init infoEx modelInfoBatch).update
        (Except.ok [Val.num 5, Val.num 100]) = (Except.ok d2, 1) ∧
      dictGet d2.props "p1" = some (Val.num 5) ∧
      dictGet d2.props "p2" = some (Val.num 10) :=
  update_divisor_applied (SubDevice.init infoEx modelInfoBatch) specP1 specP2
    rfl rfl rfl rfl rfl rfl rfl

/-- C10: `remove_callback(id)` on an unregistered observer id raises an
uncaught `KeyError` (the map is popped with no default); on a registered id
it removes exactly that observer — the id is gone and every other observer
id still maps to its previous callback. -/
theorem remove_callback_pop (d : SubDevice) (id : String) :
    (dictGet d.registered_callbacks id = none →
      d.remove_callback id = Except.error ()) ∧
    ((dictGet d.registered_callbacks id).isSome →
      ∃ d2, d.remove_callback id = Except.ok d2 ∧
        dictGet d2.registered_callbacks id = none ∧
        ∀ k, k ≠ id → dictGet d2.registered_callbacks k =
          dictGet d.registered_callbacks k) := by
  constructor
  · intro h
    simp [SubDevice.remove_callback, dictPop, h]
  · intro h
    rw [Option.isSome_iff_exists] at h
    obtain ⟨cb, hcb⟩ := h
    refine ⟨{ d with registered_callbacks := d.registered_callbacks.filter (fun p => p.1 ≠ id) }, ?_, ?_, ?_⟩
    · simp [SubDevice.remove_callback, dictPop, hcb]
    · exact dictGet_filter_self _ _
    · intro k hk
      exact dictGet_filter_other _ _ _ hk

/-- Witness for C10: removing the one registered observer of a concrete
device (registered via `register_callback`). -/
theorem remove_callback_pop_witness :
    ∃ d2, (((SubDevice.init infoEx {}).register_callback "cb1" 7).1).remove_callback
        "cb1" = Except.ok d2 ∧
      dictGet d2.registered_callbacks "cb1" = none ∧
      ∀ k, k ≠ "cb1" → dictGet d2.registered_callbacks k =
        dictGet (((SubDevice.init infoEx {}).register_callback "cb1" 7).1).registered_callbacks k :=
  (remove_callback_pop (((SubDevice.init infoEx {}).register_callback "cb1" 7).1)
    "cb1").2 (by decide)

/-- C5: on a sub-device as constructed from its discovery record, whenever
the single-property fetch of `"fw_ver"` fails for any reason — a raised
transport exception, or the empty response that `get_property` rejects —
`get_firmware_version()` propagates no error: it returns the firmware
version captured at discovery time with the state unchanged; on a
successful fetch it returns the freshly fetched (last-popped) value. -/
theorem get_firmware_version_graceful (dev_info : SubDeviceInfo)
    (mi : ModelInfo) (resp : Except Unit (List Val)) :
    ((resp = Except.error () ∨ resp = Except.ok []) →
      (SubDevice.init dev_info mi).get_firmware_version resp =
        (SubDevice.init dev_info mi, Val.num (dev_info.fw_ver : ℚ))) ∧
    (∀ vs v, resp = Except.ok vs → vs.getLast? = some v →
      ((SubDevice.init dev_info mi).get_firmware_version resp).2 = v) := by
  constructor
  · rintro (rfl | rfl) <;>
      simp [SubDevice.get_firmware_version, get_property, SubDevice.init]
  · rintro vs v rfl hlast
    have hvs : vs ≠ [] := by
      intro hnil
      rw [hnil] at hlast
      exact Option.noConfusion hlast
    simp [SubDevice.get_firmware_version, get_property, hvs, hlast]

/-- Witness for C5: a failing transport on a freshly discovered device with
firmware 7 yields 7 and leaves the state untouched. -/
theorem get_firmware_version_graceful_witness :
    (SubDevice.init infoEx {}).get_firmware_version (Except.error ()) =
      (SubDevice.init infoEx {}, Val.num (infoEx.fw_ver : ℚ)) :=
  (get_firmware_version_graceful infoEx {} (Except.error ())).1 (Or.inl rfl)

/-- C2 (counter-evidence): on a sub-device with no registered push events,
`push_callback("unknownAction", "params")` logs the unregistered-action
error (`true`) but then still evaluates `self.push_events[action]` and
raises an uncaught `KeyError` (`Except.error`), instead of returning: the
cache is never mutated and no observer runs only because the exception
aborts the method. -/
theorem push_callback_unregistered_raises :
    (SubDevice.init infoEx {}).push_callback "unknownAction" "params" =
      (true, Except.error ()) := rfl

/-- A sub-device currently holding the two subscription handles
`["a", "b"]`. -/
def deviceTwoIds : SubDevice :=
  { SubDevice.init infoEx {} with event_ids := ["a", "b"] }

theorem unsubscribeLoop_of_none (ids : List String) (i : ℕ)
    (released : List String) (h : ids[i]? = none) :
    unsubscribeLoop ids i released = (ids, released) := by
  unfold unsubscribeLoop
  split
  · rfl
  · rename_i heq
    rw [h] at heq
    exact Option.noConfusion heq

theorem unsubscribeLoop_of_some (ids : List String) (i : ℕ)
    (released : List String) (x : String) (h : ids[i]? = some x) :
    unsubscribeLoop ids i released =
      unsubscribeLoop (listRemove ids x) (i + 1) (released ++ [x]) := by
  conv => lhs; unfold unsubscribeLoop
  split
  · rename_i heq
    rw [h] at heq
    exact Option.noConfusion heq
  · rename_i ev heq
    rw [h] at heq
    cases heq
    rfl

/-- C3 (counter-evidence): `unsubscribe_events()` on a device holding the
handles `["a", "b"]`, with every release request succeeding, releases only
`"a"` and leaves `event_ids = ["b"]`: the loop mutates `_event_ids` while
iterating it by index, so after `"a"` is removed the iterator's next index
is already past `"b"` and the loop stops. -/
theorem unsubscribe_events_skips_second :
    deviceTwoIds.unsubscribe_events =
      ({ deviceTwoIds with event_ids := ["b"] }, ["a"]) := by
  have hloop : unsubscribeLoop ["a", "b"] 0 [] = (["b"], ["a"]) := by
    rw [unsubscribeLoop_of_some ["a", "b"] 0 [] "a" rfl]
    norm_num [listRemove]
    rw [unsubscribeLoop_of_none ["b"] 1 ["a"] rfl]
  simp [SubDevice.unsubscribe_events, deviceTwoIds, hloop]

/-- The overall boolean of the `subscribe_events` fold: the initial flag
conjoined with every event's subscription request having succeeded. -/
theorem subscribeFold_fst (d : SubDevice) (svc : EventInfo → Option String) :
    ∀ (l : List (String × EventMeta)) (b : Bool) (ids : List String),
      (l.foldl (subscribeStep d svc) (b, ids)).1 =
        (b && l.all (fun pe => (svc (mkEventInfo d pe)).isSome)) := by
  intro l
  induction l with
  | nil => intro b ids; simp
  | cons pe rest ih =>
    intro b ids
    cases hsvc : svc (mkEventInfo d pe) with
    | none => simp [subscribeStep, hsvc, ih]
    | some eid => simp [subscribeStep, hsvc, ih]

/-- C4: `subscribe_events()` returns `true` only if every declared event
subscribed successfully; and on a device with exactly two declared events
and no held handles, where the service accepts the first request (handle
`h1`) and rejects the second, the call returns `false` while `h1` remains
recorded in `event_ids` — the successful subscription is not rolled
back. -/
theorem subscribe_events_no_rollback (d : SubDevice)
    (svc : EventInfo → Option String) :
    ((d.subscribe_events svc).1 = true →
      ∀ pe ∈ d.push_events, (svc (mkEventInfo d pe)).isSome = true) ∧
    (∀ a1 m1 a2 m2 h1,
      d.push_events = [(a1, m1), (a2, m2)] → d.event_ids = [] →
      svc (mkEventInfo d (a1, m1)) = some h1 →
      svc (mkEventInfo d (a2, m2)) = none →
      (d.subscribe_events svc).1 = false ∧
        ((d.subscribe_events svc).2).event_ids = [h1]) := by
  constructor
  · intro htrue pe hpe
    have hf := subscribeFold_fst d svc d.push_events true d.event_ids
    simp only [SubDevice.subscribe_events] at htrue
    rw [hf, Bool.true_and] at htrue
    exact List.all_eq_true.mp htrue pe hpe
  · intro a1 m1 a2 m2 h1 hpush hids hs1 hs2
    simp [SubDevice.subscribe_events, hpush, hids, subscribeStep, hs1, hs2]

/-- Witness for C4 on a device declaring events `e1`, `e2` against a
service that accepts only `e1`. -/
theorem subscribe_events_no_rollback_witness :
    ((SubDevice.init infoEx modelInfoPush).subscribe_events svcFirstOnly).1 =
        false ∧
      (((SubDevice.init infoEx modelInfoPush).subscribe_events
        svcFirstOnly).2).event_ids = ["handle1"] :=
  (subscribe_events_no_rollback (SubDevice.init infoEx modelInfoPush)
    svcFirstOnly).2 "e1" metaE1 "e2" metaE2 "handle1" rfl rfl rfl rfl

end Miio
